import Mathlib

/-!
Verification of the unordered concurrent-operation dispatch engine and its
stream-triggered invocation mode, shallowly embedded from the three Rust
programs of the repository (task1: concurrent balance queries, task2:
concurrent batch transfers, task3: stream-triggered transfers).

Modelling conventions:
* machine integers (u64) are modelled as Nat (no arithmetic in the sources
  can overflow in the claims considered);
* external SDK operations (base58 pubkey parsing, keypair decoding, RPC
  calls) are modelled as abstract function fields of an environment record,
  since their bodies live outside this repository;
* the FuturesUnordered drain (tasks.next() until None) yields completed
  futures in completion order; we model each future as a pair of a
  completion delay and its outcome, and the drain as a stable sort by delay;
* a Rust `?` early return is modelled as an error outcome that stops the
  drain loop; a Rust `.expect(..)` failure aborts the whole process and is
  modelled as a distinguished panicked outcome that also stops everything.
-/

namespace SolanaTasks

/-- Outcome of executing one operation body: a value, a recoverable error
returned as Err (handled by a `?` in the caller), or a process-aborting
panicked state raised by `.expect(..)` inside the operation body. -/
inductive OpResult (A : Type) where
  | ok (a : A)
  | err (e : String)
  | panicked (m : String)
  deriving DecidableEq

def OpResult.isOk {A : Type} : OpResult A → Bool
  | .ok _ => true
  | _ => false

instance {β : Type} : DecidableRel (fun (a b : Nat × β) => a.1 ≤ b.1) :=
  fun a b => Nat.decLe a.1 b.1

instance {β : Type} : IsTotal (Nat × β) (fun a b => a.1 ≤ b.1) :=
  ⟨fun a b => Nat.le_total a.1 b.1⟩

instance {β : Type} : IsTrans (Nat × β) (fun a b => a.1 ≤ b.1) :=
  ⟨fun _ _ _ => Nat.le_trans⟩

/-- Completion schedule of a FuturesUnordered pool: every submitted future
is tagged with its completion delay, and the drain observes them ordered by
completion time (a stable insertion sort by the delay component). -/
def drainSchedule {β : Type} (tasks : List (Nat × β)) : List (Nat × β) :=
  List.insertionSort (fun a b => a.1 ≤ b.1) tasks

/-- Values yielded by `tasks.next().await` until the pool is exhausted, in
completion order. -/
def poolDrain {β : Type} (tasks : List (Nat × β)) : List β :=
  (drainSchedule tasks).map Prod.snd

theorem drainSchedule_pairwise {β : Type} (tasks : List (Nat × β)) :
    (drainSchedule tasks).Pairwise (fun a b => a.1 ≤ b.1) :=
  List.sorted_insertionSort _ tasks

theorem drainSchedule_perm {β : Type} (tasks : List (Nat × β)) :
    (drainSchedule tasks).Perm tasks :=
  List.perm_insertionSort _ tasks

theorem poolDrain_length {β : Type} (tasks : List (Nat × β)) :
    (poolDrain tasks).length = tasks.length := by
  unfold poolDrain
  rw [List.length_map]
  exact (drainSchedule_perm tasks).length_eq

theorem poolDrain_mem {β : Type} (tasks : List (Nat × β)) {b : β}
    (hb : b ∈ poolDrain tasks) : ∃ d, (d, b) ∈ tasks := by
  unfold poolDrain at hb
  obtain ⟨⟨d, b'⟩, hmem, hsnd⟩ := List.mem_map.mp hb
  cases hsnd
  exact ⟨d, (drainSchedule_perm tasks).mem_iff.mp hmem⟩

namespace Task1

/-- Base58 account address, kept abstract as its decoded byte content. -/
structure Pubkey where
  bytes : List Nat
  deriving DecidableEq

/-- Commitment (consistency) levels offered by the ledger RPC client. -/
inductive Commitment where
  | processed
  | confirmed
  | finalized
  deriving DecidableEq

/-- Strength of a commitment level: processed is the weakest and finalized
the strongest consistency guarantee. -/
def Commitment.level : Commitment → Nat
  | .processed => 0
  | .confirmed => 1
  | .finalized => 2

structure WalletBalance where
  address : String
  balance : Nat
  deriving DecidableEq

/-- Constant from the source (its name carries a typo of the source). -/
def LAPORTS_PER_SOL : ℚ := 1000000000

/-- Conversion from lamports to SOL. The source divides in f64; here the
division is taken over ℚ, which agrees with f64 whenever operands and exact
quotient are dyadic rationals with mantissas below 2 to the 53, as in the
inputs considered by the spec (see dyadicRepresentable below). -/
def lamport_to_sol (lamports : Nat) : ℚ :=
  (lamports : ℚ) / LAPORTS_PER_SOL

/-- Rationals exactly representable in an IEEE binary64 significand (scaled
by a power of two); f64 operations on such values whose exact result is
again such a value are exact. -/
def dyadicRepresentable (q : ℚ) : Prop :=
  ∃ (m e : ℤ), m.natAbs < 2 ^ 53 ∧ q = (m : ℚ) * (2 : ℚ) ^ e

/-- Abstract environment: the external SDK pubkey decoder and the RPC
client balance call (parameterised by the commitment level used). -/
structure Env where
  pubkey_from_str : String → Option Pubkey
  get_balance_with_commitment : Pubkey → Commitment → Except String Nat

/-- Embedding of get_balance: parse the wallet address (a failure of
Pubkey::from_str propagates through `?` as this operation's error), then
query the balance at the processed commitment level. -/
def get_balance (env : Env) (wallet_address : String) :
    Except String WalletBalance :=
  match env.pubkey_from_str wallet_address with
  | none => .error "Invalid pubkey"
  | some pk =>
    match env.get_balance_with_commitment pk Commitment.processed with
    | .error e => .error e
    | .ok balance => .ok { address := wallet_address, balance := balance }

/-- Embedding of the result-drain loop of main: each Ok result is reported
and the loop continues; the first Err result makes `result?` return from
main, dropping the pool and everything still in flight. Returns the
reported results and the error main returned with, if any. -/
def drainLoop : List (Except String WalletBalance) →
    List WalletBalance × Option String
  | [] => ([], none)
  | .ok w :: rest =>
    let r := drainLoop rest
    (w :: r.1, r.2)
  | .error e :: _ => ([], some e)

/-- Whole batch run of task1: one get_balance future per wallet, each with
a completion delay, drained in completion order by the main loop. -/
def runBalances (env : Env) (wallets : List String) (delays : List Nat) :
    List WalletBalance × Option String :=
  drainLoop (poolDrain (delays.zip (wallets.map (get_balance env))))

theorem drainLoop_all_ok (rs : List (Except String WalletBalance))
    (h : ∀ r ∈ rs, ∃ b, r = Except.ok b) :
    (drainLoop rs).1.length = rs.length ∧ (drainLoop rs).2 = none := by
  induction rs with
  | nil => exact ⟨rfl, rfl⟩
  | cons r rest ih =>
    obtain ⟨b, hb⟩ := h r (List.mem_cons_self r rest)
    subst hb
    have hr := ih (fun x hx => h x (List.mem_cons_of_mem _ hx))
    simp [drainLoop, hr.1, hr.2]

end Task1

/-- Demonstration environment: the address string good decodes to a pubkey,
every other string is rejected by the decoder, and every balance query the
client receives answers 42 lamports. -/
def demoEnv : Task1.Env :=
  { pubkey_from_str := fun s => if s = "good" then some ⟨[1]⟩ else none
    get_balance_with_commitment := fun _ _ => .ok 42 }

/-- C1 counterexample: in a batch of two balance queries where the first to
complete fails (bad address) and the second succeeds, the drain loop of
main returns on the first error, so only 1 item (the error) is observed for
N = 2 inputs and the succeeding sibling result is never delivered. -/
theorem batch_success_dropped_after_failure :
    Task1.get_balance demoEnv "good" = .ok ⟨"good", 42⟩ ∧
    Task1.runBalances demoEnv ["bad", "good"] [0, 1] =
      ([], some "Invalid pubkey") := by
  constructor <;> rfl

/-- C1 amended: the pool completes one future per operation, and whenever
every operation in the batch succeeds the drain delivers exactly N results
and main returns without error; but the drain loop stops at the first
failing result, so later-completing successes are only delivered when no
earlier completion fails. -/
theorem batch_count_preserved_when_all_succeed (env : Task1.Env)
    (wallets : List String) (delays : List Nat)
    (hlen : delays.length = wallets.length)
    (hok : ∀ w ∈ wallets, ∃ b, Task1.get_balance env w = Except.ok b) :
    (Task1.runBalances env wallets delays).1.length = wallets.length ∧
    (Task1.runBalances env wallets delays).2 = none := by
  have hzlen :
      (delays.zip (wallets.map (Task1.get_balance env))).length
        = wallets.length := by
    rw [List.length_zip, List.length_map, hlen, Nat.min_self]
  have hall : ∀ r ∈ poolDrain (delays.zip (wallets.map (Task1.get_balance env))),
      ∃ b, r = Except.ok b := by
    intro r hr
    obtain ⟨d, hd⟩ := poolDrain_mem _ hr
    have hmap : r ∈ wallets.map (Task1.get_balance env) := (List.of_mem_zip hd).2
    obtain ⟨w, hw, hwr⟩ := List.mem_map.mp hmap
    obtain ⟨b, hb⟩ := hok w hw
    exact ⟨b, by rw [← hwr, hb]⟩
  have hmain := Task1.drainLoop_all_ok _ hall
  constructor
  · show (Task1.drainLoop (poolDrain _)).1.length = _
    rw [hmain.1, poolDrain_length, hzlen]
  · exact hmain.2

/-- Closed instance of the amended C1 statement at a concrete batch. -/
theorem batch_count_preserved_when_all_succeed_witness :
    (Task1.runBalances demoEnv ["good"] [3]).1.length
      = (["good"] : List String).length ∧
    (Task1.runBalances demoEnv ["good"] [3]).2 = none :=
  batch_count_preserved_when_all_succeed demoEnv ["good"] [3] rfl
    (by
      intro w hw
      rw [List.mem_singleton] at hw
      subst hw
      exact ⟨⟨"good", 42⟩, rfl⟩)

/-- C6: the drain observes completed operations in completion order; an
operation with a strictly smaller completion delay is observed strictly
before one with a larger delay, wherever the two sat in submission order. -/
theorem drain_observes_completion_order {β : Type} (tasks : List (Nat × β))
    (i j : Fin (drainSchedule tasks).length)
    (h : ((drainSchedule tasks).get i).1 < ((drainSchedule tasks).get j).1) :
    i < j := by
  rcases lt_trichotomy i j with hij | hij | hij
  · exact hij
  · rw [hij] at h
    exact absurd h (lt_irrefl _)
  · have hle := List.pairwise_iff_get.mp (drainSchedule_pairwise tasks) j i hij
    exact absurd h (not_lt.mpr hle)

/-- Closed instance of the completion-order statement on a two-task pool
with staggered delays 2 and 5. -/
theorem drain_observes_completion_order_witness :
    ((drainSchedule [(5, 0), (2, 1)]).get ⟨0, by decide⟩).1
      < ((drainSchedule [(5, 0), (2, 1)]).get ⟨1, by decide⟩).1
    ∧ (⟨0, by decide⟩ : Fin (drainSchedule [(5, 0), (2, 1)]).length)
      < ⟨1, by decide⟩ :=
  ⟨by decide, drain_observes_completion_order _ _ _ (by decide)⟩

/-- C7: a successful balance query is made at the processed commitment
level, the weakest level the client offers, and the produced result carries
exactly the queried address together with the balance the client returned
for that processed-level call. -/
theorem get_balance_processed_spec (env : Task1.Env) (addr : String)
    (pk : Task1.Pubkey) (v : Nat)
    (hpk : env.pubkey_from_str addr = some pk)
    (hbal : env.get_balance_with_commitment pk Task1.Commitment.processed
      = Except.ok v) :
    Task1.get_balance env addr = Except.ok ⟨addr, v⟩ ∧
    ∀ c : Task1.Commitment, Task1.Commitment.processed.level ≤ c.level := by
  constructor
  · simp [Task1.get_balance, hpk, hbal]
  · intro c
    cases c <;> simp [Task1.Commitment.level]

/-- Closed instance of the balance-query specification. -/
theorem get_balance_processed_spec_witness :
    Task1.get_balance demoEnv "good" = Except.ok ⟨"good", 42⟩ ∧
    ∀ c : Task1.Commitment, Task1.Commitment.processed.level ≤ c.level :=
  get_balance_processed_spec demoEnv "good" ⟨[1]⟩ 42 (by decide) rfl

/-- C8 counterexample: dispatching a BalanceQuery for a malformed address
fails inside get_balance with the address-validation error even though the
client would have answered the balance call, so address validation does
happen at dispatch time in the balance program. -/
theorem balance_query_validates_at_dispatch :
    Task1.get_balance demoEnv "oops" = Except.error "Invalid pubkey" ∧
    demoEnv.get_balance_with_commitment ⟨[1]⟩ Task1.Commitment.processed
      = Except.ok 42 := by
  constructor <;> rfl

/-- C9: converting 2500000000 lamports yields exactly 2.5 SOL, and the
operands and exact quotient of the conversion are all dyadic rationals with
significands below 2 to the 53, so the f64 division of the source computes
this value exactly. -/
theorem lamport_to_sol_exact_at_2_5 :
    Task1.lamport_to_sol 2500000000 = 5 / 2 ∧
    Task1.dyadicRepresentable (Task1.lamport_to_sol 2500000000) ∧
    Task1.dyadicRepresentable ((2500000000 : Nat) : ℚ) ∧
    Task1.dyadicRepresentable Task1.LAPORTS_PER_SOL := by
  have h : Task1.lamport_to_sol 2500000000 = 5 / 2 := by
    norm_num [Task1.lamport_to_sol, Task1.LAPORTS_PER_SOL]
  refine ⟨h, ⟨5, -1, by decide, ?_⟩,
    ⟨2500000000, 0, by decide, by norm_num⟩,
    ⟨1000000000, 0, by decide, by norm_num [Task1.LAPORTS_PER_SOL]⟩⟩
  rw [h, zpow_neg, zpow_one]
  norm_num

namespace Task2

/-- Account address (decoded byte content of the base58 string). -/
structure Pubkey where
  bytes : List Nat
  deriving DecidableEq

/-- Signing keypair decoded from the 64 configured secret bytes. -/
structure Keypair where
  bytes : List Nat
  deriving DecidableEq

structure Blockhash where
  val : Nat
  deriving DecidableEq

structure Signature where
  val : Nat
  deriving DecidableEq

/-- Ledger-reported execution result of a transaction, as stored in the
status field: Ok(()) or a transaction error with its rendered detail. -/
inductive TxResult where
  | ok
  | err (detail : String)
  deriving DecidableEq

/-- Deserialized configuration file of the batch-transfer program. -/
structure YamlFile where
  rpc_url : String
  sender_private_keys : List (List Nat)
  recepient_pyblic_keys : List String
  deriving DecidableEq

structure Transfer where
  amount : Nat
  sender_keypair : Keypair
  recepient_public_key : Pubkey
  deriving DecidableEq

/-- Signed value-transfer request assembled by system_transaction::transfer
from the sender keypair, recipient, amount and reference blockhash. -/
structure Transaction where
  sender : Keypair
  recipient : Pubkey
  amount : Nat
  blockhash : Blockhash
  deriving DecidableEq

def system_transaction_transfer (kp : Keypair) (pk : Pubkey) (amount : Nat)
    (bh : Blockhash) : Transaction :=
  ⟨kp, pk, amount, bh⟩

/-- Result record of one transfer. The source stores the base58 string
rendering of the two addresses; we keep the pubkeys themselves since the
rendering is display-only formatting. -/
structure TransferResult where
  from_pk : Pubkey
  to_pk : Pubkey
  signature : Signature
  processing_time : Nat
  status : Option TxResult
  deriving DecidableEq

/-- Abstract external SDK operations whose bodies live outside this
repository: keypair decoding, address parsing, and derivation of the public
key of a keypair. -/
structure Sdk where
  keypair_from_bytes : List Nat → Option Keypair
  pubkey_from_str : String → Option Pubkey
  keypair_pubkey : Keypair → Pubkey

/-- Responses the shared RPC client hands to one particular operation
during its execution; a Unit error stands for an unavailable call. -/
structure RpcResponses where
  get_latest_blockhash : Except Unit Blockhash
  send_and_confirm_transaction : Transaction → Except Unit Signature
  get_signature_status : Signature → Except Unit (Option TxResult)
  elapsed : Nat

/-- Embedding of parse_yaml after deserialization: assert every private key
has exactly 64 bytes, then assert the sender and recipient lists have equal
length; a failed assert panics before any transfer is formed. -/
def parse_yaml (cfg : YamlFile) : Except String YamlFile :=
  if cfg.sender_private_keys.all (fun k => k.length == 64) then
    if cfg.sender_private_keys.length == cfg.recepient_pyblic_keys.length then
      Except.ok cfg
    else Except.error "The numbers of sender and recepint wallets is not equal."
  else Except.error "Private key has length not equal to 64."

/-- Body of the form_transfers loop over the zipped key/address pairs; a
failed decode panics (expect) with the message of the source. -/
def formTransfersAux (sdk : Sdk) (amount : Nat) :
    List (List Nat × String) → Except String (List Transfer)
  | [] => Except.ok []
  | (sk, rk) :: rest =>
    match sdk.keypair_from_bytes sk with
    | none => Except.error "Invalid sender private key"
    | some kp =>
      match sdk.pubkey_from_str rk with
      | none => Except.error "Invalid recepient public key"
      | some pk =>
        match formTransfersAux sdk amount rest with
        | Except.error e => Except.error e
        | Except.ok ts => Except.ok (⟨amount, kp, pk⟩ :: ts)

/-- Embedding of form_transfers: one Transfer per zipped pair of the i-th
sender key and i-th recipient address, all with the same fixed amount. -/
def form_transfers (sdk : Sdk) (cfg : YamlFile) (amount : Nat) :
    Except String (List Transfer) :=
  formTransfersAux sdk amount
    (cfg.sender_private_keys.zip cfg.recepient_pyblic_keys)

/-- Embedding of make_transfer. Every fallible client call is wrapped in
expect by the source, so each failure panics the process rather than
returning this operation's Err: (a) fetch the latest blockhash, (b) build
the signed transfer, (c) submit and confirm, (d) record elapsed time,
(e) query the signature status, (f,g) assemble the result. -/
def make_transfer (sdk : Sdk) (transfer : Transfer) (rpc : RpcResponses) :
    OpResult TransferResult :=
  match rpc.get_latest_blockhash with
  | Except.error _ => .panicked "Failed to get latest blockhash"
  | Except.ok latest_blockhash =>
    let tx := system_transaction_transfer transfer.sender_keypair
      transfer.recepient_public_key transfer.amount latest_blockhash
    match rpc.send_and_confirm_transaction tx with
    | Except.error _ => .panicked "Failed to send transaction"
    | Except.ok signature =>
      match rpc.get_signature_status signature with
      | Except.error _ => .panicked "Failed to get transaction status"
      | Except.ok tx_status =>
        .ok { from_pk := sdk.keypair_pubkey transfer.sender_keypair
              to_pk := transfer.recepient_public_key
              signature := signature
              processing_time := rpc.elapsed
              status := tx_status }

/-- Terminal condition of a batch-transfer run. -/
inductive RunEnd where
  | finished
  | errored (e : String)
  | panicked (m : String)
  deriving DecidableEq

/-- Embedding of the drain loop of make_transfers: report each Ok result
and continue; an Err result makes `result?` return early; a panicked future
aborts the process at the moment that future is polled to completion. -/
def drainLoop : List (OpResult TransferResult) →
    List TransferResult × RunEnd
  | [] => ([], RunEnd.finished)
  | .ok r :: rest =>
    let d := drainLoop rest
    (r :: d.1, d.2)
  | .err e :: _ => ([], RunEnd.errored e)
  | .panicked m :: _ => ([], RunEnd.panicked m)

/-- Whole batch run of make_transfers: one make_transfer future per
Transfer, each paired with the responses it receives from the shared client
and with its completion delay, drained in completion order. -/
def make_transfers (sdk : Sdk) (transfers : List Transfer)
    (rpcs : List RpcResponses) (delays : List Nat) :
    List TransferResult × RunEnd :=
  drainLoop (poolDrain (delays.zip
    ((transfers.zip rpcs).map (fun p => make_transfer sdk p.1 p.2))))

end Task2

/-- Demonstration SDK: keypairs decode exactly when 64 bytes are supplied,
the address string bad is rejected by the parser, and the public key of a
keypair is the second half of its bytes. -/
def demoSdk : Task2.Sdk :=
  { keypair_from_bytes := fun l => if l.length = 64 then some ⟨l⟩ else none
    pubkey_from_str := fun s => if s = "bad" then none else some ⟨[s.length]⟩
    keypair_pubkey := fun k => ⟨k.bytes.drop 32⟩ }

/-- Client responses for an operation whose three calls all succeed. -/
def rpcOk : Task2.RpcResponses :=
  { get_latest_blockhash := Except.ok ⟨7⟩
    send_and_confirm_transaction := fun _ => Except.ok ⟨99⟩
    get_signature_status := fun _ => Except.ok (some Task2.TxResult.ok)
    elapsed := 10 }

/-- Client responses for an operation whose latest-blockhash fetch is
unavailable. -/
def rpcNoBlockhash : Task2.RpcResponses :=
  { get_latest_blockhash := Except.error ()
    send_and_confirm_transaction := fun _ => Except.ok ⟨99⟩
    get_signature_status := fun _ => Except.ok (some Task2.TxResult.ok)
    elapsed := 10 }

def demoTransfer : Task2.Transfer :=
  { amount := 100000000
    sender_keypair := ⟨[1]⟩
    recepient_public_key := ⟨[2]⟩ }

/-- C2 counterexample: in a batch of two transfers where the first to
complete hits a failing blockhash fetch, the expect panics the whole
process: nothing is delivered and the sibling transfer, which succeeds in
isolation under its own responses, never gets its result reported. -/
theorem blockhash_failure_aborts_siblings :
    (Task2.make_transfer demoSdk demoTransfer rpcOk).isOk = true ∧
    Task2.make_transfers demoSdk [demoTransfer, demoTransfer]
      [rpcNoBlockhash, rpcOk] [0, 1]
      = ([], Task2.RunEnd.panicked "Failed to get latest blockhash") := by
  constructor <;> rfl

/-- C2 amended: a failing latest-blockhash fetch makes the operation panic
through expect with the message of the source, aborting the whole process
(and with it the pool and any sibling not yet reported) instead of
surfacing as a per-operation error. -/
theorem blockhash_failure_panics (sdk : Task2.Sdk) (t : Task2.Transfer)
    (rpc : Task2.RpcResponses)
    (h : rpc.get_latest_blockhash = Except.error ()) :
    Task2.make_transfer sdk t rpc
      = OpResult.panicked "Failed to get latest blockhash" := by
  simp [Task2.make_transfer, h]

/-- Closed instance of the blockhash-failure panic. -/
theorem blockhash_failure_panics_witness :
    Task2.make_transfer demoSdk demoTransfer rpcNoBlockhash
      = OpResult.panicked "Failed to get latest blockhash" :=
  blockhash_failure_panics demoSdk demoTransfer rpcNoBlockhash rfl

/-- C8 amended: in the batch-transfer program the configuration checks
(equal list lengths, 64-byte credentials) all happen in parse_yaml before
any dispatch, but in the balance program the account address is validated
at dispatch time inside get_balance, where a malformed address surfaces as
that dispatched operation's error. -/
theorem validation_before_dispatch_amended :
    (∀ cfg : Task2.YamlFile, (∃ c, Task2.parse_yaml cfg = Except.ok c) →
      cfg.sender_private_keys.length = cfg.recepient_pyblic_keys.length ∧
      ∀ k ∈ cfg.sender_private_keys, k.length = 64) ∧
    (∀ (env : Task1.Env) (addr : String), env.pubkey_from_str addr = none →
      Task1.get_balance env addr = Except.error "Invalid pubkey") := by
  constructor
  · rintro cfg ⟨c, hc⟩
    unfold Task2.parse_yaml at hc
    split at hc
    · split at hc
      · rename_i h1 h2
        simp only [List.all_eq_true, beq_iff_eq] at h1
        simp only [beq_iff_eq] at h2
        exact ⟨h2, h1⟩
      · simp at hc
    · simp at hc
  · intro env addr h
    simp [Task1.get_balance, h]

def demoCfg : Task2.YamlFile :=
  { rpc_url := "http"
    sender_private_keys := [List.replicate 64 1, List.replicate 64 2]
    recepient_pyblic_keys := ["r1", "r2"] }

/-- Closed instance of the amended validation statement. -/
theorem validation_before_dispatch_amended_witness :
    (demoCfg.sender_private_keys.length
        = demoCfg.recepient_pyblic_keys.length ∧
      ∀ k ∈ demoCfg.sender_private_keys, k.length = 64) ∧
    Task1.get_balance demoEnv "oops" = Except.error "Invalid pubkey" :=
  ⟨validation_before_dispatch_amended.1 demoCfg ⟨demoCfg, rfl⟩,
   validation_before_dispatch_amended.2 demoEnv "oops" (by decide)⟩

theorem formTransfersAux_spec (sdk : Task2.Sdk) (amount : Nat)
    (pairs : List (List Nat × String))
    (h : ∀ p ∈ pairs, (sdk.keypair_from_bytes p.1).isSome
      ∧ (sdk.pubkey_from_str p.2).isSome) :
    ∃ ts, Task2.formTransfersAux sdk amount pairs = Except.ok ts ∧
      ts.length = pairs.length ∧
      ∀ (i : Nat) (hi : i < ts.length) (hp : i < pairs.length),
        (ts.get ⟨i, hi⟩).amount = amount ∧
        sdk.keypair_from_bytes (pairs.get ⟨i, hp⟩).1
          = some (ts.get ⟨i, hi⟩).sender_keypair ∧
        sdk.pubkey_from_str (pairs.get ⟨i, hp⟩).2
          = some (ts.get ⟨i, hi⟩).recepient_public_key := by
  induction pairs with
  | nil => exact ⟨[], rfl, rfl, fun i hi hp => absurd hp (Nat.not_lt_zero i)⟩
  | cons p rest ih =>
    obtain ⟨sk, rk⟩ := p
    obtain ⟨hk, hr⟩ := h (sk, rk) (List.mem_cons_self _ rest)
    obtain ⟨kp, hkp⟩ := Option.isSome_iff_exists.mp hk
    obtain ⟨pk, hpk⟩ := Option.isSome_iff_exists.mp hr
    obtain ⟨ts, hts, hlen, hget⟩ :=
      ih (fun q hq => h q (List.mem_cons_of_mem _ hq))
    refine ⟨⟨amount, kp, pk⟩ :: ts, ?_, by simp [hlen], ?_⟩
    · simp [Task2.formTransfersAux, hkp, hpk, hts]
    · intro i hi hp
      cases i with
      | zero => exact ⟨rfl, by simp [hkp], by simp [hpk]⟩
      | succ n =>
        have hi' : n < ts.length := by simpa using hi
        have hp' : n < rest.length := by simpa using hp
        simpa using hget n hi' hp'

/-- C10: for a valid configuration (equal-length lists, all credentials and
addresses decodable) form_transfers builds one Transfer per position, of
the same length as the two lists, pairing the i-th sender credential with
the i-th recipient address and giving every Transfer the same amount. -/
theorem form_transfers_positional (sdk : Task2.Sdk) (cfg : Task2.YamlFile)
    (amount : Nat)
    (hlen : cfg.sender_private_keys.length = cfg.recepient_pyblic_keys.length)
    (hks : ∀ k ∈ cfg.sender_private_keys, (sdk.keypair_from_bytes k).isSome)
    (hrs : ∀ r ∈ cfg.recepient_pyblic_keys, (sdk.pubkey_from_str r).isSome) :
    ∃ ts, Task2.form_transfers sdk cfg amount = Except.ok ts ∧
      ts.length = cfg.sender_private_keys.length ∧
      ∀ (i : Nat) (hi : i < ts.length)
        (hs : i < cfg.sender_private_keys.length)
        (hr : i < cfg.recepient_pyblic_keys.length),
        (ts.get ⟨i, hi⟩).amount = amount ∧
        sdk.keypair_from_bytes (cfg.sender_private_keys.get ⟨i, hs⟩)
          = some ((ts.get ⟨i, hi⟩).sender_keypair) ∧
        sdk.pubkey_from_str (cfg.recepient_pyblic_keys.get ⟨i, hr⟩)
          = some ((ts.get ⟨i, hi⟩).recepient_public_key) := by
  have hpairs : ∀ p ∈ cfg.sender_private_keys.zip cfg.recepient_pyblic_keys,
      (sdk.keypair_from_bytes p.1).isSome ∧ (sdk.pubkey_from_str p.2).isSome := by
    intro p hp
    obtain ⟨sk, rk⟩ := p
    have hm := List.of_mem_zip hp
    exact ⟨hks sk hm.1, hrs rk hm.2⟩
  obtain ⟨ts, hts, hl, hget⟩ := formTransfersAux_spec sdk amount _ hpairs
  have hziplen :
      (cfg.sender_private_keys.zip cfg.recepient_pyblic_keys).length
        = cfg.sender_private_keys.length := by
    rw [List.length_zip, hlen, Nat.min_self]
  refine ⟨ts, hts, by rw [hl, hziplen], ?_⟩
  intro i hi hs hr
  have hp : i < (cfg.sender_private_keys.zip cfg.recepient_pyblic_keys).length := by
    rw [hziplen]
    exact hs
  have hzget :
      (cfg.sender_private_keys.zip cfg.recepient_pyblic_keys).get ⟨i, hp⟩
        = (cfg.sender_private_keys.get ⟨i, hs⟩,
           cfg.recepient_pyblic_keys.get ⟨i, hr⟩) := by
    simp [List.getElem_zip]
  have := hget i hi hp
  rw [hzget] at this
  exact this

/-- Closed instance of the positional form_transfers statement. -/
theorem form_transfers_positional_witness :
    ∃ ts, Task2.form_transfers demoSdk demoCfg 7 = Except.ok ts ∧
      ts.length = demoCfg.sender_private_keys.length ∧
      ∀ (i : Nat) (hi : i < ts.length)
        (hs : i < demoCfg.sender_private_keys.length)
        (hr : i < demoCfg.recepient_pyblic_keys.length),
        (ts.get ⟨i, hi⟩).amount = 7 ∧
        demoSdk.keypair_from_bytes (demoCfg.sender_private_keys.get ⟨i, hs⟩)
          = some ((ts.get ⟨i, hi⟩).sender_keypair) ∧
        demoSdk.pubkey_from_str (demoCfg.recepient_pyblic_keys.get ⟨i, hr⟩)
          = some ((ts.get ⟨i, hi⟩).recepient_public_key) :=
  form_transfers_positional demoSdk demoCfg 7 (by decide) (by decide) (by decide)

namespace Task3

/-- Transfer fixed at startup and executed once per qualifying event. -/
structure Transfer where
  amount : Nat
  sender_keypair : Task2.Keypair
  recepient_public_key : Task2.Pubkey
  deriving DecidableEq

/-- Result of one triggered transfer (task3 takes no timing). -/
structure TransferResult where
  from_pk : Task2.Pubkey
  to_pk : Task2.Pubkey
  signature : Task2.Signature
  status : Option Task2.TxResult
  deriving DecidableEq

/-- Responses the RPC client hands to one triggered execution. -/
structure RpcResponses where
  get_latest_blockhash : Except Unit Task2.Blockhash
  send_and_confirm_transaction : Task2.Transaction → Except Unit Task2.Signature
  get_signature_status :
    Task2.Signature → Except Unit (Option Task2.TxResult)

/-- Embedding of the task3 make_transfer: identical to the task2 one except
that no elapsed time is recorded; every fallible call is wrapped in expect,
so a failure panics the process. -/
def make_transfer (sdk : Task2.Sdk) (transfer : Transfer)
    (rpc : RpcResponses) : OpResult TransferResult :=
  match rpc.get_latest_blockhash with
  | Except.error _ => .panicked "Failed to get latest blockhash"
  | Except.ok latest_blockhash =>
    let tx := Task2.system_transaction_transfer transfer.sender_keypair
      transfer.recepient_public_key transfer.amount latest_blockhash
    match rpc.send_and_confirm_transaction tx with
    | Except.error _ => .panicked "Failed to send transaction"
    | Except.ok signature =>
      match rpc.get_signature_status signature with
      | Except.error _ => .panicked "Failed to get transaction status"
      | Except.ok tx_status =>
        .ok { from_pk := sdk.keypair_pubkey transfer.sender_keypair
              to_pk := transfer.recepient_public_key
              signature := signature
              status := tx_status }

/-- Payload kind of a decoded stream message (msg.update_oneof); only
BlockMeta is actionable. -/
inductive UpdateOneof where
  | blockMeta
  | other (tag : Nat)
  deriving DecidableEq

/-- One item delivered by the notification stream: a decoded message whose
payload may be absent, or an item that decodes as an error. -/
inductive StreamItem where
  | update (msg : Option UpdateOneof)
  | errItem (e : String)
  deriving DecidableEq

def isBlockMeta : Option UpdateOneof → Bool
  | some .blockMeta => true
  | _ => false

def isTrigger : StreamItem → Bool
  | .update m => isBlockMeta m
  | .errItem _ => false

def countTriggers (s : List StreamItem) : Nat :=
  (s.filter isTrigger).length

/-- Terminal condition of an invoker run: the stream ended, the invoker
closed after an error item, a triggered execution panicked, or main
returned early with an Err from the execution. -/
inductive RunEnd where
  | endOfStream
  | closed (e : String)
  | panicked (m : String)
  | errReturn (e : String)
  deriving DecidableEq

structure RunStats where
  executed : Nat
  consumed : Nat
  outcome : RunEnd
  deriving DecidableEq

/-- Embedding of the stream loop of main: items are consumed strictly one
at a time; a BlockMeta payload triggers one synchronous transfer execution
(the k-th execution receives the k-th client responses), any other payload
is ignored, and an error item reports the error and breaks out of the loop,
leaving the remaining items unconsumed. -/
def listenLoop (sdk : Task2.Sdk) (transfer : Transfer)
    (rpcs : Nat → RpcResponses) : Nat → List StreamItem → RunStats
  | _, [] => ⟨0, 0, RunEnd.endOfStream⟩
  | _, .errItem e :: _ => ⟨0, 1, RunEnd.closed e⟩
  | k, .update msg :: rest =>
    if isBlockMeta msg then
      match make_transfer sdk transfer (rpcs k) with
      | .panicked m => ⟨1, 1, RunEnd.panicked m⟩
      | .err e => ⟨1, 1, RunEnd.errReturn e⟩
      | .ok _ =>
        let r := listenLoop sdk transfer rpcs (k + 1) rest
        ⟨r.executed + 1, r.consumed + 1, r.outcome⟩
    else
      let r := listenLoop sdk transfer rpcs k rest
      ⟨r.executed, r.consumed + 1, r.outcome⟩

/-- Whole run of the stream-triggered invoker over a stream prefix. -/
def runInvoker (sdk : Task2.Sdk) (transfer : Transfer)
    (rpcs : Nat → RpcResponses) (s : List StreamItem) : RunStats :=
  listenLoop sdk transfer rpcs 0 s

/-- Events of an instrumented invoker run: an item is pulled off the
stream, a triggered execution starts, a triggered execution finishes. -/
inductive Ev where
  | consumedItem
  | beginExec
  | endExec
  deriving DecidableEq

def cnt (e : Ev) : List Ev → Nat
  | [] => 0
  | x :: r => (if x = e then 1 else 0) + cnt e r

/-- Instrumented trace of the stream loop. A panicking execution begins but
never ends (the process dies inside it); an execution whose result is an
Err ends before main returns with that Err. -/
def invokerTrace (sdk : Task2.Sdk) (transfer : Transfer)
    (rpcs : Nat → RpcResponses) : Nat → List StreamItem → List Ev
  | _, [] => []
  | _, .errItem _ :: _ => [Ev.consumedItem]
  | k, .update msg :: rest =>
    if isBlockMeta msg then
      match make_transfer sdk transfer (rpcs k) with
      | .panicked _ => [Ev.consumedItem, Ev.beginExec]
      | .err _ => [Ev.consumedItem, Ev.beginExec, Ev.endExec]
      | .ok _ => Ev.consumedItem :: Ev.beginExec :: Ev.endExec ::
          invokerTrace sdk transfer rpcs (k + 1) rest
    else Ev.consumedItem :: invokerTrace sdk transfer rpcs k rest

/-- Sanity link between the trace and the run statistics: the number of
execution starts in the trace is the number of executions counted by the
loop. -/
theorem invokerTrace_beginCount (sdk : Task2.Sdk) (t : Transfer)
    (rpcs : Nat → RpcResponses) (s : List StreamItem) :
    ∀ k, cnt Ev.beginExec (invokerTrace sdk t rpcs k s)
      = (listenLoop sdk t rpcs k s).executed := by
  induction s with
  | nil => intro k; rfl
  | cons it rest ih =>
    intro k
    cases it with
    | errItem e => rfl
    | update msg =>
      by_cases hbm : isBlockMeta msg
      · cases hmt : make_transfer sdk t (rpcs k) with
        | panicked m => simp [invokerTrace, listenLoop, hbm, hmt, cnt]
        | err e => simp [invokerTrace, listenLoop, hbm, hmt, cnt]
        | ok r =>
          simp [invokerTrace, listenLoop, hbm, hmt, cnt, ih (k + 1)]
          omega
      · simp [invokerTrace, listenLoop, hbm, cnt, ih k]

end Task3

def demoTransfer3 : Task3.Transfer :=
  { amount := 1000000
    sender_keypair := ⟨[1]⟩
    recepient_public_key := ⟨[2]⟩ }

/-- Client responses for a triggered execution whose calls all succeed. -/
def rpc3Ok : Task3.RpcResponses :=
  { get_latest_blockhash := Except.ok ⟨7⟩
    send_and_confirm_transaction := fun _ => Except.ok ⟨99⟩
    get_signature_status := fun _ => Except.ok (some Task2.TxResult.ok) }

/-- Result produced by make_transfer under demoSdk and rpc3Ok. -/
def demoResult3 : Task3.TransferResult :=
  { from_pk := ⟨[]⟩
    to_pk := ⟨[2]⟩
    signature := ⟨99⟩
    status := some Task2.TxResult.ok }

theorem listenLoop_clean (sdk : Task2.Sdk) (t : Task3.Transfer)
    (rpcs : Nat → Task3.RpcResponses) (s : List Task3.StreamItem)
    (hclean : ∀ it ∈ s, ∃ m, it = Task3.StreamItem.update m)
    (hok : ∀ k, ∃ r, Task3.make_transfer sdk t (rpcs k) = OpResult.ok r) :
    ∀ k, Task3.listenLoop sdk t rpcs k s
      = ⟨Task3.countTriggers s, s.length, Task3.RunEnd.endOfStream⟩ := by
  induction s with
  | nil =>
    intro k
    simp [Task3.listenLoop, Task3.countTriggers]
  | cons it rest ih =>
    intro k
    obtain ⟨m, hm⟩ := hclean it (List.mem_cons_self it rest)
    subst hm
    have ihr := ih (fun x hx => hclean x (List.mem_cons_of_mem _ hx))
    by_cases hbm : Task3.isBlockMeta m
    · obtain ⟨r, hr⟩ := hok k
      simp [Task3.listenLoop, hbm, hr, ihr (k + 1), Task3.countTriggers,
        List.filter, Task3.isTrigger]
    · simp [Task3.listenLoop, hbm, ihr k, Task3.countTriggers,
        List.filter, Task3.isTrigger]

/-- C3: over a stream of N BlockMeta events interleaved with M other
non-error events, with every triggered transfer succeeding, the invoker
executes exactly one transfer per BlockMeta event (N in total), consumes
all N + M items, and ends only because the stream ended. -/
theorem invoker_filters_blockmeta (sdk : Task2.Sdk) (t : Task3.Transfer)
    (rpcs : Nat → Task3.RpcResponses) (s : List Task3.StreamItem)
    (hclean : ∀ it ∈ s, ∃ m, it = Task3.StreamItem.update m)
    (hok : ∀ k, ∃ r, Task3.make_transfer sdk t (rpcs k) = OpResult.ok r) :
    Task3.runInvoker sdk t rpcs s
      = ⟨Task3.countTriggers s, s.length, Task3.RunEnd.endOfStream⟩ :=
  listenLoop_clean sdk t rpcs s hclean hok 0

/-- Closed instance of the filtering statement: one BlockMeta among three
events triggers exactly one execution. -/
theorem invoker_filters_blockmeta_witness :
    Task3.runInvoker demoSdk demoTransfer3 (fun _ => rpc3Ok)
      [Task3.StreamItem.update none,
       Task3.StreamItem.update (some Task3.UpdateOneof.blockMeta),
       Task3.StreamItem.update (some (Task3.UpdateOneof.other 3))]
      = ⟨1, 3, Task3.RunEnd.endOfStream⟩ :=
  invoker_filters_blockmeta demoSdk demoTransfer3 (fun _ => rpc3Ok) _
    (by
      intro it hit
      simp only [List.mem_cons, List.not_mem_nil, or_false] at hit
      rcases hit with rfl | rfl | rfl <;> exact ⟨_, rfl⟩)
    (fun _ => ⟨demoResult3, rfl⟩)

/-- C4: on the stream Other, BlockMeta, Other, BlockMeta, Error the invoker
performs exactly 2 transfer executions, consumes exactly those 5 items (any
items after the error are left unread), and terminates in the closed state
carrying the reported error, with no panic escaping. -/
theorem invoker_closes_on_error (sdk : Task2.Sdk) (t : Task3.Transfer)
    (rpcs : Nat → Task3.RpcResponses) (e : String)
    (tail : List Task3.StreamItem)
    (h0 : ∃ r, Task3.make_transfer sdk t (rpcs 0) = OpResult.ok r)
    (h1 : ∃ r, Task3.make_transfer sdk t (rpcs 1) = OpResult.ok r) :
    Task3.runInvoker sdk t rpcs
      ([Task3.StreamItem.update (some (Task3.UpdateOneof.other 0)),
        Task3.StreamItem.update (some Task3.UpdateOneof.blockMeta),
        Task3.StreamItem.update (some (Task3.UpdateOneof.other 1)),
        Task3.StreamItem.update (some Task3.UpdateOneof.blockMeta),
        Task3.StreamItem.errItem e] ++ tail)
      = ⟨2, 5, Task3.RunEnd.closed e⟩ := by
  obtain ⟨r0, hr0⟩ := h0
  obtain ⟨r1, hr1⟩ := h1
  simp [Task3.runInvoker, Task3.listenLoop, Task3.isBlockMeta, hr0, hr1]

/-- Closed instance of the closing-on-error scenario. -/
theorem invoker_closes_on_error_witness :
    Task3.runInvoker demoSdk demoTransfer3 (fun _ => rpc3Ok)
      ([Task3.StreamItem.update (some (Task3.UpdateOneof.other 0)),
        Task3.StreamItem.update (some Task3.UpdateOneof.blockMeta),
        Task3.StreamItem.update (some (Task3.UpdateOneof.other 1)),
        Task3.StreamItem.update (some Task3.UpdateOneof.blockMeta),
        Task3.StreamItem.errItem "boom"] ++ [])
      = ⟨2, 5, Task3.RunEnd.closed "boom"⟩ :=
  invoker_closes_on_error demoSdk demoTransfer3 (fun _ => rpc3Ok) "boom" []
    ⟨demoResult3, rfl⟩ ⟨demoResult3, rfl⟩

/-- C5: in every prefix of the instrumented trace of any invoker run, the
number of finished executions never exceeds the number of started ones and
at most one started execution is unfinished, so no two triggered
executions are ever in flight at the same time: each one completes before
the next stream item is requested. -/
theorem invoker_executions_never_overlap (sdk : Task2.Sdk)
    (t : Task3.Transfer) (rpcs : Nat → Task3.RpcResponses) (k : Nat)
    (s : List Task3.StreamItem) (n : Nat) :
    Task3.cnt Task3.Ev.endExec
        ((Task3.invokerTrace sdk t rpcs k s).take n)
      ≤ Task3.cnt Task3.Ev.beginExec
        ((Task3.invokerTrace sdk t rpcs k s).take n) ∧
    Task3.cnt Task3.Ev.beginExec
        ((Task3.invokerTrace sdk t rpcs k s).take n)
      ≤ Task3.cnt Task3.Ev.endExec
        ((Task3.invokerTrace sdk t rpcs k s).take n) + 1 := by
  induction s generalizing k n with
  | nil => simp [Task3.invokerTrace, Task3.cnt]
  | cons it rest ih =>
    cases it with
    | errItem e =>
      cases n with
      | zero => simp [Task3.cnt]
      | succ m => simp [Task3.invokerTrace, Task3.cnt]
    | update msg =>
      by_cases hbm : Task3.isBlockMeta msg
      · cases hmt : Task3.make_transfer sdk t (rpcs k) with
        | panicked m' =>
          rcases n with _ | _ | m <;>
            simp [Task3.invokerTrace, hbm, hmt, Task3.cnt]
        | err e' =>
          rcases n with _ | _ | _ | m <;>
            simp [Task3.invokerTrace, hbm, hmt, Task3.cnt]
        | ok r =>
          rcases n with _ | _ | _ | m
          · simp [Task3.cnt]
          · simp [Task3.invokerTrace, hbm, hmt, Task3.cnt]
          · simp [Task3.invokerTrace, hbm, hmt, Task3.cnt]
          · have h := ih (k + 1) m
            simp [Task3.invokerTrace, hbm, hmt, Task3.cnt] at h ⊢
            omega
      · cases n with
        | zero => simp [Task3.cnt]
        | succ m =>
          have h := ih k m
          simp [Task3.invokerTrace, hbm, Task3.cnt] at h ⊢
          omega

end SolanaTasks
